import Mathlib

/-!
Shallow embedding of the sap-bot retrieval pipeline.

Sources embedded here:
* `document_preprocessor.py` — chunking of a cleaned document into passages;
* `intent_classifier.py` — regex-driven intent classification and search-term
  expansion;
* `embedding_manager_enhanced.py` — the FAISS-backed vector search
  (`search_single`), the multi-term aggregation (`search_intelligent`) and
  persistence (`save` / `load`);
* `gemini_assistant.py` — the wrapper around the external LLM call
  (`generate_natural_response`).

External services are modelled as function parameters carried in the state:
the sentence-transformer `encode` (text to unit vector), Python's `re.search`
(pattern matching on strings), the regex primitives used by the preprocessor,
and the raw Gemini API call.  Machine floats are modelled as rationals (`ℚ`);
all claims under scrutiny concern ordering, de-duplication and control flow,
none of which depend on rounding.
-/

namespace SapBot

/-! ### Python string primitives -/

/-- Python's whitespace test used by `str.strip` / `str.split`. -/
def pyIsSpace (c : Char) : Bool := c.isWhitespace

/-- Python `str.strip` on the underlying character list: drop leading whitespace,
then trailing whitespace. -/
def stripChars (l : List Char) : List Char :=
  List.rdropWhile pyIsSpace (List.dropWhile pyIsSpace l)

/-- Python `s.strip()`. -/
def pyStrip (s : String) : String := ⟨stripChars s.data⟩

/-- Python `s.split()` (split on whitespace runs, no empty pieces). -/
def pySplitWs (s : String) : List String :=
  (s.split fun c => pyIsSpace c).filter fun p => p ≠ ""

/-- Python `s.lower()`, as a character-wise map on the underlying list. -/
def pyLower (s : String) : String := ⟨s.data.map Char.toLower⟩

/-! ### document_preprocessor.py -/

/-- The `DocumentPreprocessor` configuration (`self.chunk_size`, `self.overlap`). -/
structure DocumentPreprocessor where
  chunk_size : Nat
  overlap : Nat
deriving DecidableEq, Repr

/-- Models `DocumentPreprocessor.__init__(chunk_size=500, overlap=50)`.  The source
body only stores the two parameters and contains no validation or `raise`;
the error monad makes the absence of a construction-time failure observable. -/
def DocumentPreprocessor.init (chunk_size : Nat) (overlap : Nat) :
    Except String DocumentPreprocessor :=
  .ok ⟨chunk_size, overlap⟩

/-- The regex primitives used by `document_preprocessor.py`, modelled as
external parameters (they call into Python's `re` module):
`secMatch line` is the first heading pattern's `match.group(1)` on `line`
(`re.match` over the three patterns of `_split_into_sections`), and
`sentSplitRaw text` is `re.split` with the sentence-boundary pattern of
`_split_into_sentences`. -/
structure RegexHooks where
  secMatch : String → Option String
  sentSplitRaw : String → List String

/-- Models `_split_into_sentences`: regex split, then strip each piece and drop
empties. -/
def splitIntoSentences (hooks : RegexHooks) (text : String) : List String :=
  ((hooks.sentSplitRaw text).map pyStrip).filter fun s => s ≠ ""

/-- The `for sentence in reversed(sentences)` loop of
`_get_overlap_sentences`, with its `break` on the first sentence that no
longer fits in the `overlap` budget. -/
def overlapLoop (overlap : Nat) : List String → String → String
  | [], acc => acc
  | s :: rest, acc =>
      if acc.length + s.length ≤ overlap then
        overlapLoop overlap rest (s ++ " " ++ acc)
      else acc

/-- Models `_get_overlap_sentences`. -/
def getOverlapSentences (hooks : RegexHooks) (pre : DocumentPreprocessor)
    (text : String) : String :=
  pyStrip (overlapLoop pre.overlap (splitIntoSentences hooks text).reverse "")

/-- One step of the sentence-level loop in `_split_section_into_chunks`
(state: emitted chunks so far, current buffer). -/
def sentenceFold (hooks : RegexHooks) (pre : DocumentPreprocessor)
    (st : List String × String) (s : String) : List String × String :=
  let chunks := st.1
  let cur := st.2
  if pre.chunk_size < cur.length + s.length ∧ cur ≠ "" then
    (chunks ++ [cur], getOverlapSentences hooks pre cur ++ " " ++ s)
  else (chunks, cur ++ " " ++ s)

/-- One step of the paragraph-level loop in `_split_section_into_chunks`. -/
def paragraphFold (hooks : RegexHooks) (pre : DocumentPreprocessor)
    (st : List String × String) (p : String) : List String × String :=
  if pre.chunk_size < p.length then
    (splitIntoSentences hooks p).foldl (sentenceFold hooks pre) st
  else
    let chunks := st.1
    let cur := st.2
    if pre.chunk_size < cur.length + p.length ∧ cur ≠ "" then
      (chunks ++ [cur], p)
    else (chunks, cur ++ " " ++ p)

/-- Models `_split_section_into_chunks` (the `section_name` argument of the source is
unused there and omitted). -/
def splitSectionIntoChunks (hooks : RegexHooks) (pre : DocumentPreprocessor)
    (text : String) : List String :=
  let paragraphs := ((text.splitOn "\n\n").map pyStrip).filter fun p => p ≠ ""
  let res := paragraphs.foldl (paragraphFold hooks pre) ([], "")
  if res.2 ≠ "" then res.1 ++ [res.2] else res.1

/-- The line loop of `_split_into_sections` (state: current section name and
accumulated lines).  Mirrors the source: a heading line only closes the
previous section when the accumulator is non-empty (so a heading on the very
first line does not replace the default section name). -/
def sectionsLoop (hooks : RegexHooks) :
    List String → String → List String → List (String × String)
  | [], curName, curContent =>
      if curContent.isEmpty then []
      else [(curName, String.intercalate "\n" curContent)]
  | l :: rest, curName, curContent =>
      let line := pyStrip l
      if line = "" then sectionsLoop hooks rest curName curContent
      else
        match hooks.secMatch line with
        | some g =>
            if curContent.isEmpty then
              sectionsLoop hooks rest curName (curContent ++ [line])
            else
              (curName, String.intercalate "\n" curContent) ::
                sectionsLoop hooks rest (pyStrip g) [line]
        | none => sectionsLoop hooks rest curName (curContent ++ [line])

/-- Models `_split_into_sections`: split on newlines and run the line loop starting
from the default section label. -/
def splitIntoSections (hooks : RegexHooks) (content : String) :
    List (String × String) :=
  sectionsLoop hooks (content.splitOn "\n") "Introdução" []

/-- The whitespace-collapsing pass of `_clean_text`
(`re.sub(r'\s+', ' ', text)`); the flag records whether the previous
character was whitespace. -/
def collapseWs : Bool → List Char → List Char
  | _, [] => []
  | prev, c :: cs =>
      if pyIsSpace c then
        if prev then collapseWs true cs else ' ' :: collapseWs true cs
      else c :: collapseWs false cs

/-- The control-character filter of `_clean_text`
(`re.sub(r'[\x00-\x1f\x7f-\x9f]', '', text)`). -/
def keepChar (c : Char) : Bool :=
  ¬ (c.toNat ≤ 0x1f ∨ (0x7f ≤ c.toNat ∧ c.toNat ≤ 0x9f))

/-- Models `_clean_text`: collapse whitespace, drop control characters, strip. -/
def cleanText (s : String) : String :=
  pyStrip ⟨(collapseWs false s.data).filter keepChar⟩

/-- One row of the passage table built by `process_document`. -/
structure Chunk where
  chunk_id : Nat
  text : String
  section_label : String
  char_count : Nat
  word_count : Nat
deriving DecidableEq, Repr

/-- The chunk-emission loop of `process_document`: walk the candidate
`(section_name, chunk_text)` pairs, keep only those whose stripped text is
longer than 100 characters, and number the kept ones with the running
`chunk_id` counter. -/
def buildChunks : Nat → List (String × String) → List Chunk
  | _, [] => []
  | n, (name, c) :: rest =>
      if 100 < (pyStrip c).length then
        ⟨n, pyStrip c, name, c.length, (pySplitWs c).length⟩ ::
          buildChunks (n + 1) rest
      else buildChunks n rest

/-- Models `process_document`, as a function of the file's text (the file read is
external I/O): clean, split into sections, chunk each section, then filter
and number. -/
def processDocument (hooks : RegexHooks) (pre : DocumentPreprocessor)
    (content : String) : List Chunk :=
  let cleaned := cleanText content
  let sections := splitIntoSections hooks cleaned
  let candidates := sections.flatMap fun s =>
    (splitSectionIntoChunks hooks pre s.2).map fun c => (s.1, c)
  buildChunks 0 candidates

/-! ### intent_classifier.py -/

/-- The dict `self.intent_patterns`: the ordered mapping from intent name to its list
of regex pattern strings, exactly as written in `IntentClassifier.__init__`. -/
def intent_patterns : List (String × List String) :=
  [("conditional_logic",
    ["(como|usar).*(condição|condicional|se|caso|if)",
     "(transformação|transformar).*(condicional)",
     "(quando|se).*(então|then)",
     "(múltiplas|várias).*(condições)"]),
   ("data_lookup",
    ["(como|usar).*(buscar|procurar|lookup|referência)",
     "(tabela).*(referência|lookup)",
     "(join|junção)",
     "(relacionar|associar).*(dados)"]),
   ("data_validation",
    ["(como|usar).*(validar)",
     "(verificar|checar).*(dados)",
     "(qualidade).*(dados)",
     "(erro|inválido).*(dados)"]),
   ("string_operations",
    ["(como|usar).*(texto|string|cadeia)",
     "(manipular|transformar).*(texto|string)",
     "(concatenar|juntar).*(texto)",
     "(extrair).*(texto)"]),
   ("date_operations",
    ["(como|usar).*(data|datahora|timestamp)",
     "(calcular|somar|subtrair).*(data)",
     "(formatar).*(data)",
     "(data).*(hoje|atual|sistema)"]),
   ("aggregation",
    ["(como|usar).*(somar|média|contar)",
     "(agregação|agrupar)",
     "(soma|total|média|contagem)"]),
   ("small_talk",
    ["^(oi|olá|ola|bom dia|boa tarde|boa noite)\\b",
     "(quem é você|quem é voce)",
     "(qual seu nome)",
     "(fale sobre você|sobre voce)",
     "(você é um bot|voce é um bot)",
     "(você é o gemini|voce é o gemini)",
     "(como você funciona|como voce funciona)",
     "(conte algo|me conte algo)",
     "(piada|história)"]),
   ("general_non_technical",
    ["(dormir|sono|insônia|insônia)",
     "(saúde|bem estar)",
     "(receita|cozinhar)",
     "(temperatura do modelo|temperatura)",
     "(clima|previsão do tempo)",
     "(motivação|carreira|estudo|vida)"])]

/-- Look up an intent's pattern list in `intent_patterns`. -/
def patternsFor (intent : String) : List String :=
  ((intent_patterns.find? fun p => p.1 = intent).map fun p => p.2).getD []

/-- The dict `self.function_mapping`: suggested functions per technical intent. -/
def function_mapping : List (String × List String) :=
  [("conditional_logic", ["decode", "ifthenelse", "case"]),
   ("data_lookup", ["lookup", "lookup_ext", "lookup_seq", "join"]),
   ("data_validation", ["is_valid", "is_number", "is_date", "match_pattern"]),
   ("string_operations", ["substr", "concat", "lower", "upper", "trim", "replace"]),
   ("date_operations", ["add_days", "date_diff", "to_date", "sysdate"]),
   ("aggregation", ["sum", "avg", "count", "min", "max"])]

/-- Look up an intent's suggested functions in `function_mapping`. -/
def functionsFor (intent : String) : List String :=
  ((function_mapping.find? fun p => p.1 = intent).map fun p => p.2).getD []

/-- The set `self.sap_intents`.  The source stores a Python `set`; its iteration
order is fixed within one interpreter process, modelled here by the
declaration order of the set literal. -/
def sap_intents : List String :=
  ["conditional_logic", "data_lookup", "data_validation",
   "string_operations", "date_operations", "aggregation"]

/-- Models `IntentClassifier.classify_intent`, with Python's `re.search` passed in
as the external matcher `m : pattern → text → Bool`: small-talk patterns are
tested first, then general non-technical patterns, then each SAP intent's
patterns; an unmatched query falls back to `general_non_technical`. -/
def classify_intent (m : String → String → Bool) (query : String) :
    String × List String :=
  let ql := pyLower query
  if (patternsFor "small_talk").any (fun p => m p ql) then ("small_talk", [])
  else if (patternsFor "general_non_technical").any (fun p => m p ql) then
    ("general_non_technical", [])
  else
    match sap_intents.find? (fun i => (patternsFor i).any fun p => m p ql) with
    | some i => (i, functionsFor i)
    | none => ("general_non_technical", [])

/-- Models `IntentClassifier.get_search_terms`: empty for non-SAP intents, otherwise
the original query followed by the recommended functions. -/
def get_search_terms (m : String → String → Bool) (query : String) :
    List String :=
  let ic := classify_intent m query
  if ic.1 ∈ sap_intents then query :: ic.2 else []

/-! ### embedding_manager_enhanced.py — data model -/

/-- One element of a per-query result list (the dict built in
`search_single`). -/
structure SearchResult where
  text : String
  chunk_id : Nat
  section_label : String
  similarity : ℚ
  search_term : String
deriving DecidableEq, Repr

/-- The dict returned by `search_intelligent`. -/
structure QueryOutcome where
  intent : String
  recommended_functions : List String
  search_terms_used : List String
  results : List SearchResult
  natural_response : Option String
  gemini_used : Bool
deriving DecidableEq, Repr

/-- The only exception the search path itself raises:
`ValueError("Índice não criado.")` from `search_single` when the FAISS index
has not been populated by `create_index` or `load`. -/
inductive SearchError where
  | indexNotReady
deriving DecidableEq, Repr

/-- The `EnhancedEmbeddingManager` state.  External services are carried as
functions: `encode` is `self.model.encode` (one normalized embedding per
text), `reSearch` is Python's `re.search` used by the intent classifier, and
`gemini_assistant` is the raw Gemini API call of `GeminiAssistant`
(`.error` = the call raised, `.ok none` = no candidates in the response,
`.ok (some t)` = response text `t`).  `index` holds the FAISS embedding
matrix once built. -/
structure EnhancedEmbeddingManager where
  encode : String → List ℚ
  reSearch : String → String → Bool
  gemini_assistant : Option (String → Except String (Option String))
  index : Option (List (List ℚ))
  chunks_df : List Chunk

/-! ### Sorting (Python's stable `sorted`) -/

/-- Insert `x` into `l`, placing it before the first element `y` with
`ge x y`; with a reflexive `ge` and a `foldr` driver this is Python's stable
`sorted(..., reverse=True)`. -/
def insertStable (ge : α → α → Bool) (x : α) : List α → List α
  | [] => [x]
  | y :: ys => if ge x y then x :: y :: ys else y :: insertStable ge x ys

/-- Stable sort placing greater elements first. -/
def stableSortBy (ge : α → α → Bool) (l : List α) : List α :=
  l.foldr (insertStable ge) []

/-- Descending-similarity comparison for results
(`key=lambda x: x['similarity'], reverse=True`). -/
def simGE (a b : SearchResult) : Bool := b.similarity ≤ a.similarity

/-- Python's `sorted(results, key=lambda x: x['similarity'], reverse=True)`. -/
def sortDesc (l : List SearchResult) : List SearchResult :=
  stableSortBy simGE l

/-! ### embedding_manager_enhanced.py — search -/

/-- Inner product of two stored-precision vectors. -/
def dot (a b : List ℚ) : ℚ := (List.zipWith (fun x y => x * y) a b).sum

/-- Descending-score comparison for FAISS hits. -/
def scoreGE (a b : Nat × ℚ) : Bool := b.2 ≤ a.2

/-- Models `faiss.IndexFlatIP.search`: score every stored embedding against the
query embedding and return the `kSearch` best `(row index, inner product)`
pairs in descending score order (ties by ascending row index, the stable
order of the enumeration). -/
def faissSearch (embs : List (List ℚ)) (qe : List ℚ) (kSearch : Nat) :
    List (Nat × ℚ) :=
  (stableSortBy scoreGE (embs.enum.map fun p => (p.1, dot qe p.2))).take kSearch

/-- The result-collection loop of `search_single`: keep a hit when its row
index is in range, its similarity meets the threshold, fewer than `k` results
have been kept, and its `chunk_id` has not been seen. -/
def searchSingleStep (st : EnhancedEmbeddingManager) (q : String)
    (minSim : ℚ) (k : Nat) (acc : List SearchResult) (hit : Nat × ℚ) :
    List SearchResult :=
  if hit.1 < st.chunks_df.length ∧ minSim ≤ hit.2 ∧ acc.length < k then
    match st.chunks_df.get? hit.1 with
    | some row =>
        if acc.any (fun r => r.chunk_id = row.chunk_id) then acc
        else acc ++ [⟨row.text, row.chunk_id, row.section_label, hit.2, q⟩]
    | none => acc
  else acc

/-- Models `EnhancedEmbeddingManager.search_single(query, k=3, min_similarity=0.2)`:
raises when the index is absent, otherwise searches the FAISS index with
`k_search = min(k * 2, len(chunks_df))`, filters and de-duplicates the hits,
and returns them sorted by similarity descending. -/
def search_single (st : EnhancedEmbeddingManager) (query : String) (k : Nat)
    (minSim : ℚ) : Except SearchError (List SearchResult) :=
  match st.index with
  | none => .error .indexNotReady
  | some embs =>
      let qe := st.encode query
      let kSearch := min (k * 2) st.chunks_df.length
      let hits := faissSearch embs qe kSearch
      .ok (sortDesc (hits.foldl (searchSingleStep st query minSim k) []))

/-- The `for term in search_terms[:3]` loop of `search_intelligent`: run
`search_single(term, k=2, min_similarity=0.15)` per term and concatenate; a
raised exception aborts the loop. -/
def gatherResults (st : EnhancedEmbeddingManager) :
    List String → Except SearchError (List SearchResult)
  | [] => .ok []
  | t :: ts =>
      match search_single st t 2 (mkRat 3 20) with
      | .error e => .error e
      | .ok r =>
          match gatherResults st ts with
          | .error e => .error e
          | .ok rest => .ok (r ++ rest)

/-- One step of the de-duplication dict build in `search_intelligent`:
`unique_results[chunk_id] = result` when the id is new (dict append keeps
first-insertion position) or when the new similarity is strictly greater
(in-place update keeps the position). -/
def dedupStep (acc : List SearchResult) (r : SearchResult) :
    List SearchResult :=
  if ∃ x ∈ acc, x.chunk_id = r.chunk_id then
    acc.map fun x =>
      if x.chunk_id = r.chunk_id ∧ x.similarity < r.similarity then r else x
  else acc ++ [r]

/-! ### gemini_assistant.py -/

/-- The fixed instruction template of `generate_natural_response`
(the surrounding prompt text, with the query and the formatted evidence
spliced in). -/
def geminiPrompt (user_query : String) (search_context : String) : String :=
  "Você é um especialista em SAP Data Services respondendo em português do Brasil.\n\nPERGUNTA DO USUÁRIO: " ++
    user_query ++
    "\n\nCONTEXTO DA DOCUMENTAÇÃO ENCONTRADA:\n" ++ search_context ++
    "\n\nINSTRUÇÕES: responda diretamente em português de forma natural:\n"

/-- Models `GeminiAssistant.generate_natural_response`: format the top 3 results
into the prompt, call the raw API (`g`), and return the stripped text only
when it is non-empty; any exception from the call, a response without
candidates, or empty/whitespace text yields `None`.  (The `:.3f` float
formatting of the source is display-only and rendered via `toString`.) -/
def generate_natural_response (g : String → Except String (Option String))
    (user_query : String) (search_results : List SearchResult) :
    Option String :=
  let search_context := String.join ((search_results.take 3).map fun r =>
    "Resultado (Similaridade: " ++ toString r.similarity ++ "):\n" ++
      r.text ++ "\n\n")
  match g (geminiPrompt user_query search_context) with
  | .error _ => none
  | .ok none => none
  | .ok (some t) => if pyStrip t = "" then none else some (pyStrip t)

/-! ### embedding_manager_enhanced.py — search_intelligent, save/load -/

/-- The guarded Gemini call of `search_intelligent`
(`if self.gemini_assistant and final_results:` around
`generate_natural_response`, with the surrounding `try/except` that sets
`natural_response = None`; the `except` arm is unreachable here because
`generate_natural_response` already catches its own call's exceptions and
returns `None`). -/
def gemini_response
    (gemini : Option (String → Except String (Option String)))
    (user_query : String) (final_results : List SearchResult) :
    Option String :=
  match gemini with
  | some g =>
      if final_results.isEmpty then none
      else generate_natural_response g user_query final_results
  | none => none

/-- Models `EnhancedEmbeddingManager.search_intelligent(user_query, k=5)`: classify
the intent, expand search terms, run `search_single` on the first 3 terms,
merge with the de-duplicating dict, sort by similarity descending, truncate
to `k`, and attach the Gemini response when the assistant is configured and
the result list is non-empty. -/
def search_intelligent (st : EnhancedEmbeddingManager) (user_query : String)
    (k : Nat) : Except SearchError QueryOutcome :=
  let ic := classify_intent st.reSearch user_query
  let search_terms := get_search_terms st.reSearch user_query
  match gatherResults st (search_terms.take 3) with
  | .error e => .error e
  | .ok all_results =>
      let final_results := (sortDesc (all_results.foldl dedupStep [])).take k
      let natural_response :=
        gemini_response st.gemini_assistant user_query final_results
      .ok ⟨ic.1, ic.2, search_terms.take 3, final_results, natural_response,
        natural_response.isSome⟩

/-- The two artifacts `save` writes under one path and `load` reads back:
`faiss.index` (the embedding matrix) and `chunks.parquet` (the passage
table); `none` models a missing file. -/
structure IndexStoreDir where
  faissFile : Option (List (List ℚ))
  parquetFile : Option (List Chunk)
deriving Repr

/-- A file-read failure (`faiss.read_index` / `pl.read_parquet` raising on a
missing path). -/
inductive LoadError where
  | fileNotFound
deriving DecidableEq, Repr

/-- Models `EnhancedEmbeddingManager.load(path)`: read the FAISS index, then the
passage table, and install both on the manager.  The source performs no
consistency check between the two row counts — it stores whatever the two
reads return. -/
def load (st : EnhancedEmbeddingManager) (dir : IndexStoreDir) :
    Except LoadError EnhancedEmbeddingManager :=
  match dir.faissFile with
  | none => .error .fileNotFound
  | some idx =>
      match dir.parquetFile with
      | none => .error .fileNotFound
      | some chunks => .ok { st with index := some idx, chunks_df := chunks }

/-! ### Failure modes of the external generator -/

/-- The failure modes of the raw Gemini call: it raises, returns a response
with no candidates, or returns empty/whitespace-only text. -/
def genCallFails (g : String → Except String (Option String)) : Prop :=
  ∀ p, match g p with
  | .error _ => True
  | .ok none => True
  | .ok (some t) => pyStrip t = ""

/-- Failure of the whole generator pipeline: either no assistant is
configured, or every raw call fails in one of the modes above. -/
def geminiFailing :
    Option (String → Except String (Option String)) → Prop
  | none => True
  | some g => genCallFails g

/-! ### Concrete instances for evaluation

Concrete managers exercising the definitions above.  The matchers play the
role of `re.search` restricted to the inputs that actually occur in the
evaluations. -/

/-- Matcher that reports a hit exactly for the `data_lookup` pattern
`(join|junção)` (as `re.search` would on a query mentioning "join"). -/
def demoMatcher : String → String → Bool := fun p _ => p = "(join|junção)"

/-- Matcher that reports a hit for the greeting small-talk pattern on texts
starting with "bom dia" (as `re.search` would on "bom dia!"). -/
def greetMatcher : String → String → Bool := fun p s =>
  p = "^(oi|olá|ola|bom dia|boa tarde|boa noite)\\b" &&
    List.isPrefixOf "bom dia".data s.data

/-- Matcher hitting both a small-talk pattern and a `data_lookup` pattern. -/
def mixedMatcher : String → String → Bool := fun p _ =>
  p = "(piada|história)" || p = "(join|junção)"

/-- A two-passage table. -/
def demoChunks : List Chunk :=
  [⟨0, "texto zero", "s0", 10, 2⟩, ⟨1, "texto um", "s1", 8, 2⟩]

/-- A fully built manager whose generator always raises. -/
def demoManager : EnhancedEmbeddingManager :=
  { encode := fun _ => [1]
  , reSearch := demoMatcher
  , gemini_assistant := some fun _ => .error "api caiu"
  , index := some [[1], [mkRat 1 2]]
  , chunks_df := demoChunks }

/-- A second manager, definitionally equal to `demoManager` component by
component. -/
def demoManagerTwin : EnhancedEmbeddingManager :=
  { encode := fun _ => [1]
  , reSearch := demoMatcher
  , gemini_assistant := some fun _ => .error "api caiu"
  , index := some [[1], [mkRat 1 2]]
  , chunks_df := demoChunks }

/-- A manager whose index was never built. -/
def noIndexManager : EnhancedEmbeddingManager :=
  { encode := fun _ => [1]
  , reSearch := greetMatcher
  , gemini_assistant := none
  , index := none
  , chunks_df := [] }

/-- A built manager whose query embeddings are orthogonal to every stored
embedding (every similarity is 0, below the 0.15 threshold) and whose
generator would succeed if it were ever called. -/
def zeroEncodeManager : EnhancedEmbeddingManager :=
  { encode := fun _ => [0]
  , reSearch := demoMatcher
  , gemini_assistant := some fun _ => .ok (some "resposta")
  , index := some [[1], [mkRat 1 2]]
  , chunks_df := demoChunks }

/-- The merged per-term result lists of
`search_intelligent demoManager "como fazer join?"`. -/
def demoAll : List SearchResult :=
  [⟨"texto zero", 0, "s0", 1, "como fazer join?"⟩,
   ⟨"texto um", 1, "s1", mkRat 1 2, "como fazer join?"⟩,
   ⟨"texto zero", 0, "s0", 1, "lookup"⟩,
   ⟨"texto um", 1, "s1", mkRat 1 2, "lookup"⟩,
   ⟨"texto zero", 0, "s0", 1, "lookup_ext"⟩,
   ⟨"texto um", 1, "s1", mkRat 1 2, "lookup_ext"⟩]

/-- The outcome of `search_intelligent demoManager "como fazer join?" 5`. -/
def demoOutcome : QueryOutcome :=
  ⟨"data_lookup", ["lookup", "lookup_ext", "lookup_seq", "join"],
   ["como fazer join?", "lookup", "lookup_ext"],
   [⟨"texto zero", 0, "s0", 1, "como fazer join?"⟩,
    ⟨"texto um", 1, "s1", mkRat 1 2, "como fazer join?"⟩],
   none, false⟩

/-- The outcome of `search_intelligent zeroEncodeManager
"como fazer join?" 5`: every similarity fell below the threshold. -/
def zeroOutcome : QueryOutcome :=
  ⟨"data_lookup", ["lookup", "lookup_ext", "lookup_seq", "join"],
   ["como fazer join?", "lookup", "lookup_ext"], [], none, false⟩

/-- A store directory holding one embedding but two passages. -/
def mismatchStore : IndexStoreDir :=
  ⟨some [[1]], some demoChunks⟩

/-- What `load demoManager mismatchStore` installs. -/
def mismatchLoaded : EnhancedEmbeddingManager :=
  { demoManager with index := some [[1]], chunks_df := demoChunks }

/-! ### Lemmas: stable sort -/

theorem insertStable_perm (ge : α → α → Bool) (x : α) (l : List α) :
    (insertStable ge x l).Perm (x :: l) := by
  induction l with
  | nil => exact List.Perm.refl _
  | cons y ys ih =>
      by_cases h : ge x y = true
      · simp [insertStable, h]
      · simp only [insertStable, h, if_false, Bool.false_eq_true]
        exact (ih.cons y).trans (List.Perm.swap x y ys)

theorem insertStable_pairwise (ge : α → α → Bool)
    (htrans : ∀ a b c, ge a b = true → ge b c = true → ge a c = true)
    (htot : ∀ a b, ge a b = true ∨ ge b a = true) (x : α) (l : List α)
    (hl : l.Pairwise fun a b => ge a b = true) :
    (insertStable ge x l).Pairwise fun a b => ge a b = true := by
  induction l with
  | nil => simp [insertStable]
  | cons y ys ih =>
      obtain ⟨hy, hys⟩ := List.pairwise_cons.1 hl
      by_cases h : ge x y = true
      · simp only [insertStable, h, if_true]
        refine List.pairwise_cons.2 ⟨?_, hl⟩
        intro z hz
        rcases List.mem_cons.1 hz with rfl | hz
        · exact h
        · exact htrans x y z h (hy z hz)
      · simp only [insertStable, h, if_false, Bool.false_eq_true]
        refine List.pairwise_cons.2 ⟨?_, ih hys⟩
        intro z hz
        rcases List.mem_cons.1 ((insertStable_perm ge x ys).mem_iff.1 hz)
          with rfl | hz
        · rcases htot z y with hzy | hyz
          · exact absurd hzy h
          · exact hyz
        · exact hy z hz

theorem stableSortBy_perm (ge : α → α → Bool) (l : List α) :
    (stableSortBy ge l).Perm l := by
  induction l with
  | nil => exact List.Perm.refl _
  | cons x xs ih =>
      exact (insertStable_perm ge x (stableSortBy ge xs)).trans (ih.cons x)

theorem stableSortBy_pairwise (ge : α → α → Bool)
    (htrans : ∀ a b c, ge a b = true → ge b c = true → ge a c = true)
    (htot : ∀ a b, ge a b = true ∨ ge b a = true) (l : List α) :
    (stableSortBy ge l).Pairwise fun a b => ge a b = true := by
  induction l with
  | nil => simp [stableSortBy]
  | cons x xs ih => exact insertStable_pairwise ge htrans htot x _ ih

theorem sortDesc_perm (l : List SearchResult) : (sortDesc l).Perm l :=
  stableSortBy_perm simGE l

theorem sortDesc_sorted (l : List SearchResult) :
    (sortDesc l).Pairwise fun a b => b.similarity ≤ a.similarity := by
  refine List.Pairwise.imp ?_
    (stableSortBy_pairwise simGE ?_ ?_ l)
  · intro a b h
    exact of_decide_eq_true h
  · intro a b c hab hbc
    exact decide_eq_true (le_trans (of_decide_eq_true hbc) (of_decide_eq_true hab))
  · intro a b
    rcases le_total b.similarity a.similarity with h | h
    · exact Or.inl (decide_eq_true h)
    · exact Or.inr (decide_eq_true h)

/-! ### Lemmas: Python strip -/

theorem stripChars_idempotent (l : List Char) :
    stripChars (stripChars l) = stripChars l := by
  unfold stripChars
  have hdw : List.dropWhile pyIsSpace
      (List.rdropWhile pyIsSpace (List.dropWhile pyIsSpace l)) =
      List.rdropWhile pyIsSpace (List.dropWhile pyIsSpace l) := by
    cases hz : List.rdropWhile pyIsSpace (List.dropWhile pyIsSpace l) with
    | nil => simp
    | cons c zs =>
        obtain ⟨t, ht⟩ := List.rdropWhile_prefix pyIsSpace
          (List.dropWhile pyIsSpace l)
        rw [hz] at ht
        have hne : List.dropWhile pyIsSpace l ≠ [] := by
          rw [← ht]; simp
        have hc : pyIsSpace ((List.dropWhile pyIsSpace l).head hne) = false :=
          List.head_dropWhile_not pyIsSpace l hne
        have h1 : (List.dropWhile pyIsSpace l).head? = some c := by
          rw [← ht]; rfl
        rw [List.head?_eq_head hne] at h1
        rw [Option.some.inj h1] at hc
        simp [List.dropWhile_cons, hc]
  rw [hdw, List.rdropWhile_idempotent]

theorem pyStrip_idempotent (s : String) : pyStrip (pyStrip s) = pyStrip s := by
  unfold pyStrip
  exact congrArg String.mk (stripChars_idempotent s.data)

/-! ### Lemmas: chunk building -/

theorem buildChunks_spec (cands : List (String × String)) (n : Nat) :
    ((buildChunks n cands).map fun c => c.chunk_id) =
      List.range' n (buildChunks n cands).length ∧
    ∀ c ∈ buildChunks n cands,
      100 < c.text.length ∧ c.text = pyStrip c.text := by
  induction cands generalizing n with
  | nil => simp [buildChunks]
  | cons hd rest ih =>
      obtain ⟨name, t⟩ := hd
      by_cases h : 100 < (pyStrip t).length
      · simp only [buildChunks, if_pos h]
        obtain ⟨ih1, ih2⟩ := ih (n + 1)
        constructor
        · simpa [List.range'_succ] using ih1
        · intro c hc
          rcases List.mem_cons.1 hc with rfl | hc
          · exact ⟨h, (pyStrip_idempotent t).symm⟩
          · exact ih2 c hc
      · simp only [buildChunks, if_neg h]
        exact ih n

/-! ### Lemmas: the de-duplicating dict of search_intelligent -/

theorem dedupStep_invariant (processed acc : List SearchResult)
    (r : SearchResult)
    (h1 : (acc.map fun x => x.chunk_id).Nodup)
    (h2 : ∀ x ∈ acc, x ∈ processed)
    (h3 : ∀ x ∈ acc, ∀ y ∈ processed,
      y.chunk_id = x.chunk_id → y.similarity ≤ x.similarity)
    (h4 : ∀ y ∈ processed, ∃ x ∈ acc, x.chunk_id = y.chunk_id) :
    ((dedupStep acc r).map fun x => x.chunk_id).Nodup ∧
    (∀ x ∈ dedupStep acc r, x ∈ processed ++ [r]) ∧
    (∀ x ∈ dedupStep acc r, ∀ y ∈ processed ++ [r],
      y.chunk_id = x.chunk_id → y.similarity ≤ x.similarity) ∧
    (∀ y ∈ processed ++ [r], ∃ x ∈ dedupStep acc r,
      x.chunk_id = y.chunk_id) := by
  by_cases h : ∃ x ∈ acc, x.chunk_id = r.chunk_id
  · simp only [dedupStep, if_pos h]
    have hid : ∀ x ∈ acc,
        (if x.chunk_id = r.chunk_id ∧ x.similarity < r.similarity then r
          else x).chunk_id = x.chunk_id := by
      intro x _
      by_cases hc : x.chunk_id = r.chunk_id ∧ x.similarity < r.similarity
      · simp [hc, hc.1]
      · simp [hc]
    refine ⟨?_, ?_, ?_, ?_⟩
    · rw [List.map_map]
      have heq : acc.map ((fun x => x.chunk_id) ∘ fun x =>
          if x.chunk_id = r.chunk_id ∧ x.similarity < r.similarity then r
            else x) = acc.map fun x => x.chunk_id :=
        List.map_congr_left fun a ha => hid a ha
      rw [heq]; exact h1
    · intro x' hx'
      obtain ⟨x, hx, rfl⟩ := List.mem_map.1 hx'
      by_cases hc : x.chunk_id = r.chunk_id ∧ x.similarity < r.similarity
      · simp only [if_pos hc]
        exact List.mem_append.2 (Or.inr (List.mem_singleton.2 rfl))
      · simp only [if_neg hc]
        exact List.mem_append.2 (Or.inl (h2 x hx))
    · intro x' hx' y hy hid'
      obtain ⟨x, hx, rfl⟩ := List.mem_map.1 hx'
      rcases List.mem_append.1 hy with hy | hy
      · by_cases hc : x.chunk_id = r.chunk_id ∧ x.similarity < r.similarity
        · simp only [if_pos hc] at hid' ⊢
          have hyx : y.chunk_id = x.chunk_id := hid'.trans hc.1.symm
          exact le_trans (h3 x hx y hy hyx) (le_of_lt hc.2)
        · simp only [if_neg hc] at hid' ⊢
          exact h3 x hx y hy hid'
      · rw [List.mem_singleton.1 hy] at hid' ⊢
        by_cases hc : x.chunk_id = r.chunk_id ∧ x.similarity < r.similarity
        · simp only [if_pos hc]
          exact le_rfl
        · simp only [if_neg hc] at hid' ⊢
          rcases Decidable.not_and_iff_or_not.1 hc with hcid | hsim
          · exact absurd hid'.symm hcid
          · exact le_of_not_lt hsim
    · intro y hy
      rcases List.mem_append.1 hy with hy | hy
      · obtain ⟨x, hx, hxy⟩ := h4 y hy
        refine ⟨_, List.mem_map_of_mem _ hx, ?_⟩
        rw [hid x hx]; exact hxy
      · obtain ⟨x, hx, hxr⟩ := h
        refine ⟨_, List.mem_map_of_mem _ hx, ?_⟩
        rw [hid x hx, hxr, List.mem_singleton.1 hy]
  · have hno : ∀ x ∈ acc, x.chunk_id ≠ r.chunk_id := by push_neg at h; exact h
    simp only [dedupStep, if_neg h]
    refine ⟨?_, ?_, ?_, ?_⟩
    · rw [List.map_append]
      refine h1.append (List.nodup_singleton _) ?_
      intro a ha hb
      obtain ⟨x, hx, hxa⟩ := List.mem_map.1 ha
      obtain ⟨z, hz, hza⟩ := List.mem_map.1 hb
      rw [List.mem_singleton.1 hz] at hza
      exact hno x hx (hxa.trans hza.symm)
    · intro x hx
      rcases List.mem_append.1 hx with hx | hx
      · exact List.mem_append.2 (Or.inl (h2 x hx))
      · exact List.mem_append.2 (Or.inr hx)
    · intro x hx y hy hid'
      rcases List.mem_append.1 hx with hx | hx
      · rcases List.mem_append.1 hy with hy | hy
        · exact h3 x hx y hy hid'
        · rw [List.mem_singleton.1 hy] at hid'
          exact absurd hid'.symm (hno x hx)
      · rw [List.mem_singleton.1 hx] at hid' ⊢
        rcases List.mem_append.1 hy with hy | hy
        · obtain ⟨x', hx', hxy⟩ := h4 y hy
          exact absurd (hxy.trans hid') (hno x' hx')
        · rw [List.mem_singleton.1 hy]
    · intro y hy
      rcases List.mem_append.1 hy with hy | hy
      · obtain ⟨x, hx, hxy⟩ := h4 y hy
        exact ⟨x, List.mem_append.2 (Or.inl hx), hxy⟩
      · exact ⟨r, List.mem_append.2 (Or.inr (List.mem_singleton.2 rfl)),
          (List.mem_singleton.1 hy) ▸ rfl⟩

theorem dedupFold_invariant (rest : List SearchResult) :
    ∀ processed acc : List SearchResult,
    (acc.map fun x => x.chunk_id).Nodup →
    (∀ x ∈ acc, x ∈ processed) →
    (∀ x ∈ acc, ∀ y ∈ processed,
      y.chunk_id = x.chunk_id → y.similarity ≤ x.similarity) →
    (∀ y ∈ processed, ∃ x ∈ acc, x.chunk_id = y.chunk_id) →
    ((rest.foldl dedupStep acc).map fun x => x.chunk_id).Nodup ∧
    (∀ x ∈ rest.foldl dedupStep acc, x ∈ processed ++ rest) ∧
    (∀ x ∈ rest.foldl dedupStep acc, ∀ y ∈ processed ++ rest,
      y.chunk_id = x.chunk_id → y.similarity ≤ x.similarity) ∧
    (∀ y ∈ processed ++ rest, ∃ x ∈ rest.foldl dedupStep acc,
      x.chunk_id = y.chunk_id) := by
  induction rest with
  | nil =>
      intro processed acc h1 h2 h3 h4
      simpa using ⟨h1, h2, h3, h4⟩
  | cons r rest' ih =>
      intro processed acc h1 h2 h3 h4
      obtain ⟨g1, g2, g3, g4⟩ := dedupStep_invariant processed acc r h1 h2 h3 h4
      have := ih (processed ++ [r]) (dedupStep acc r) g1 g2 g3 g4
      simpa [List.append_assoc] using this

/-- The merged dict of `search_intelligent` (`unique_results.values()`):
ids are distinct, every stored result occurs in the merged per-term lists,
and each stored similarity dominates every observed similarity for its id. -/
theorem dedup_unique_spec (all : List SearchResult) :
    ((all.foldl dedupStep []).map fun x => x.chunk_id).Nodup ∧
    (∀ x ∈ all.foldl dedupStep [], x ∈ all) ∧
    (∀ x ∈ all.foldl dedupStep [], ∀ y ∈ all,
      y.chunk_id = x.chunk_id → y.similarity ≤ x.similarity) := by
  have := dedupFold_invariant all [] []
    (by simp) (by simp) (by simp) (by simp)
  simpa using ⟨this.1, this.2.1, this.2.2.1⟩

theorem gemini_response_nil
    (ga : Option (String → Except String (Option String))) (q : String) :
    gemini_response ga q [] = none := by
  cases ga <;> simp [gemini_response]

/-- Claim C1: in every outcome of `search_intelligent`, each `chunk_id`
occurs at most once, the recorded similarity of a kept result equals the
maximum similarity observed for that id across the merged per-term result
lists, and the result list is sorted by similarity descending and truncated
to at most the caller's `k`. -/
theorem multi_term_merge_spec (st : EnhancedEmbeddingManager) (q : String)
    (k : Nat) (all : List SearchResult) (o : QueryOutcome)
    (hall : gatherResults st ((get_search_terms st.reSearch q).take 3) =
      .ok all)
    (ho : search_intelligent st q k = .ok o) :
    (o.results.map fun r => r.chunk_id).Nodup ∧
    (∀ r ∈ o.results,
      (∀ y ∈ all, y.chunk_id = r.chunk_id → y.similarity ≤ r.similarity) ∧
      ∃ y ∈ all, y.chunk_id = r.chunk_id ∧ y.similarity = r.similarity) ∧
    o.results.Pairwise (fun a b => b.similarity ≤ a.similarity) ∧
    o.results.length ≤ k := by
  simp only [search_intelligent, hall] at ho
  simp only [Except.ok.injEq] at ho
  subst ho
  dsimp only
  obtain ⟨n1, n2, n3⟩ := dedup_unique_spec all
  have hperm : (sortDesc (all.foldl dedupStep [])).Perm
      (all.foldl dedupStep []) := sortDesc_perm _
  have hsub : ((sortDesc (all.foldl dedupStep [])).take k).Sublist
      (sortDesc (all.foldl dedupStep [])) := List.take_sublist k _
  refine ⟨?_, ?_, ?_, ?_⟩
  · exact ((hperm.map fun r => r.chunk_id).nodup_iff.2 n1).sublist
      (List.Sublist.map _ hsub)
  · intro r hr
    have hru : r ∈ all.foldl dedupStep [] :=
      hperm.mem_iff.1 (hsub.subset hr)
    exact ⟨n3 r hru, r, n2 r hru, rfl, rfl⟩
  · exact List.Pairwise.sublist hsub (sortDesc_sorted _)
  · rw [List.length_take]
    exact min_le_left _ _

/-- Claim C2: a query classified as small-talk or general-non-technical
(the fallback included) yields an empty search-term list, and
`search_intelligent` succeeds with empty results on every manager state —
in particular on states whose index was never built, which shows no
vector-index query is issued. -/
theorem non_technical_no_search (m : String → String → Bool) (q : String)
    (h : (classify_intent m q).1 = "small_talk" ∨
      (classify_intent m q).1 = "general_non_technical") :
    get_search_terms m q = [] ∧
    ∀ st : EnhancedEmbeddingManager, st.reSearch = m → ∀ k,
      search_intelligent st q k =
        .ok ⟨(classify_intent m q).1, (classify_intent m q).2, [], [], none,
          false⟩ := by
  have hns : (classify_intent m q).1 ∉ sap_intents := by
    rcases h with h | h <;> rw [h] <;> decide
  have hterms : get_search_terms m q = [] := by
    simp only [get_search_terms, if_neg hns]
  refine ⟨hterms, ?_⟩
  intro st hm k
  rw [show (⟨(classify_intent m q).1, (classify_intent m q).2, [], [], none,
      false⟩ : QueryOutcome) =
    ⟨(classify_intent st.reSearch q).1, (classify_intent st.reSearch q).2, [],
      [], none, false⟩ by rw [hm]]
  have hterms' : get_search_terms st.reSearch q = [] := by rw [hm]; exact hterms
  simp only [search_intelligent, hterms', List.take_nil, gatherResults]
  simp [sortDesc, stableSortBy, gemini_response_nil]

/-- Claim C3: querying the index before `create_index` or `load` has
populated it fails with the index-not-ready error
(`ValueError("Índice não criado.")` in the source) instead of returning
results. -/
theorem query_unbuilt_index_raises (st : EnhancedEmbeddingManager)
    (query : String) (k : Nat) (minSim : ℚ) (h : st.index = none) :
    search_single st query k minSim = .error .indexNotReady := by
  simp [search_single, h]

/-- Claim C4: `search_intelligent` is a pure function of the query, the
request size and the manager state (model, matcher, generator, index,
passage table); two calls over equal components return equal outcomes,
element for element. -/
theorem search_deterministic (st₁ st₂ : EnhancedEmbeddingManager)
    (he : st₁.encode = st₂.encode) (hr : st₁.reSearch = st₂.reSearch)
    (hg : st₁.gemini_assistant = st₂.gemini_assistant)
    (hi : st₁.index = st₂.index) (hc : st₁.chunks_df = st₂.chunks_df)
    (q : String) (k : Nat) :
    search_intelligent st₁ q k = search_intelligent st₂ q k := by
  cases st₁
  cases st₂
  dsimp only at he hr hg hi hc
  subst he
  subst hr
  subst hg
  subst hi
  subst hc
  rfl

/-! ### Lemmas: error provenance and generator containment -/

theorem gatherResults_error_source (st : EnhancedEmbeddingManager)
    (L : List String) (e : SearchError)
    (h : gatherResults st L = .error e) :
    st.index = none ∧ e = SearchError.indexNotReady := by
  induction L with
  | nil => simp [gatherResults] at h
  | cons t ts ih =>
      simp only [gatherResults] at h
      cases h1 : search_single st t 2 (mkRat 3 20) with
      | error e' =>
          rw [h1] at h
          cases hi : st.index with
          | some embs => simp [search_single, hi] at h1
          | none =>
              refine ⟨rfl, ?_⟩
              cases e
              rfl
      | ok r =>
          rw [h1] at h
          cases h2 : gatherResults st ts with
          | error e2 =>
              rw [h2] at h
              obtain ⟨hi, he⟩ := ih h2
              refine ⟨hi, ?_⟩
              cases e
              rfl
          | ok rest => rw [h2] at h; simp at h

theorem generate_natural_response_none
    (g : String → Except String (Option String)) (hg : genCallFails g)
    (q : String) (results : List SearchResult) :
    generate_natural_response g q results = none := by
  simp only [generate_natural_response]
  have h := hg (geminiPrompt q (String.join ((results.take 3).map fun r =>
    "Resultado (Similaridade: " ++ toString r.similarity ++ "):\n" ++
      r.text ++ "\n\n")))
  cases hgp : g (geminiPrompt q (String.join ((results.take 3).map fun r =>
    "Resultado (Similaridade: " ++ toString r.similarity ++ "):\n" ++
      r.text ++ "\n\n"))) with
  | error e => rfl
  | ok t =>
      cases t with
      | none => rfl
      | some s =>
          rw [hgp] at h
          simp only [if_pos h]

theorem gemini_response_none
    (ga : Option (String → Except String (Option String)))
    (hg : geminiFailing ga) (q : String) (l : List SearchResult) :
    gemini_response ga q l = none := by
  cases ga with
  | none => rfl
  | some g =>
      by_cases hemp : l.isEmpty <;>
        simp [gemini_response, hemp, generate_natural_response_none g hg]

/-- Claim C7: when the external generator fails (raises, or produces
empty/invalid output) — or is not configured — `search_intelligent` still
returns normally with `natural_response = None`; the only exception it can
itself raise is the index-not-ready error, never one from the generator. -/
theorem generator_failure_contained (st : EnhancedEmbeddingManager)
    (q : String) (k : Nat) (hg : geminiFailing st.gemini_assistant) :
    (∀ o, search_intelligent st q k = .ok o →
      o.natural_response = none ∧ o.gemini_used = false) ∧
    (∀ e, search_intelligent st q k = .error e →
      st.index = none ∧ e = SearchError.indexNotReady) := by
  constructor
  · intro o ho
    simp only [search_intelligent] at ho
    cases hall : gatherResults st ((get_search_terms st.reSearch q).take 3) with
    | error e => rw [hall] at ho; simp at ho
    | ok all =>
        rw [hall] at ho
        simp only [Except.ok.injEq] at ho
        subst ho
        have hnone := gemini_response_none st.gemini_assistant hg q
          ((sortDesc (all.foldl dedupStep [])).take k)
        exact ⟨hnone, by simp [hnone]⟩
  · intro e he
    simp only [search_intelligent] at he
    cases hall : gatherResults st ((get_search_terms st.reSearch q).take 3) with
    | error e' =>
        cases e
        cases e'
        exact gatherResults_error_source st _ _ hall
    | ok all => rw [hall] at he; simp at he

/-- Claim C9: a query matching both a small-talk pattern and some technical
group's pattern classifies as small-talk with no recommended terms, because
the conversational patterns are tested before every technical group. -/
theorem mixed_query_prefers_small_talk (m : String → String → Bool)
    (q : String)
    (hs : ∃ p ∈ patternsFor "small_talk", m p (pyLower q) = true)
    (_ht : ∃ i ∈ sap_intents, ∃ p ∈ patternsFor i, m p (pyLower q) = true) :
    classify_intent m q = ("small_talk", []) := by
  have ha : (patternsFor "small_talk").any (fun p => m p (pyLower q)) = true :=
    List.any_eq_true.2 hs
  simp [classify_intent, ha]

theorem gatherResults_gemini_irrel (e : String → List ℚ)
    (r : String → String → Bool)
    (g gm : Option (String → Except String (Option String)))
    (i : Option (List (List ℚ))) (c : List Chunk) (L : List String) :
    gatherResults ⟨e, r, g, i, c⟩ L = gatherResults ⟨e, r, gm, i, c⟩ L := by
  induction L with
  | nil => rfl
  | cons t ts ih =>
      simp only [gatherResults]
      rw [show search_single ⟨e, r, g, i, c⟩ t 2 (mkRat 3 20) =
        search_single ⟨e, r, gm, i, c⟩ t 2 (mkRat 3 20) from rfl, ih]

/-- Claim C10: in every successful outcome, `gemini_used` is true exactly
when `natural_response` is present; and when the merged result list is empty
the generator is never consulted — the response is `None`, the flag is
false, and the very same outcome is produced whatever generator (or none at
all) is installed. -/
theorem gemini_flag_consistent (st : EnhancedEmbeddingManager) (q : String)
    (k : Nat) (o : QueryOutcome) (h : search_intelligent st q k = .ok o) :
    (o.gemini_used = true ↔ o.natural_response ≠ none) ∧
    (o.results = [] →
      o.natural_response = none ∧ o.gemini_used = false ∧
      ∀ g, search_intelligent { st with gemini_assistant := g } q k =
        .ok o) := by
  obtain ⟨e, r, g0, i, c⟩ := st
  simp only [search_intelligent] at h
  cases hall : gatherResults ⟨e, r, g0, i, c⟩
      ((get_search_terms r q).take 3) with
  | error e' => rw [hall] at h; simp at h
  | ok all =>
      rw [hall] at h
      simp only [Except.ok.injEq] at h
      subst h
      refine ⟨Option.isSome_iff_ne_none, ?_⟩
      intro hres
      dsimp only at hres ⊢
      have hnr : gemini_response g0 q
          ((sortDesc (all.foldl dedupStep [])).take k) = none := by
        rw [hres]; exact gemini_response_nil g0 q
      refine ⟨hnr, by simp [hnr], ?_⟩
      intro g
      simp only [search_intelligent]
      rw [show gatherResults ⟨e, r, g, i, c⟩
          ((get_search_terms r q).take 3) = .ok all from
        (gatherResults_gemini_irrel e r g g0 i c _).trans hall]
      have hnr2 : gemini_response g q
          ((sortDesc (all.foldl dedupStep [])).take k) = none := by
        rw [hres]; exact gemini_response_nil g q
      simp [hnr, hnr2]

/-- Counterexample to claim C5: constructing a chunker with
`overlap = 600 > 500 = chunk_size` does not fail — `__init__` performs no
validation and an instance is produced. -/
theorem chunker_init_overlap_accepted :
    500 < 600 ∧ DocumentPreprocessor.init 500 600 = .ok ⟨500, 600⟩ :=
  ⟨by decide, rfl⟩

/-- Amended claim C5: the chunker constructor performs no validation at all;
every `(chunk_size, overlap)` pair — overlap greater than chunk_size
included — is accepted and stored unchanged. -/
theorem chunker_init_no_validation (chunk_size overlap : Nat) :
    DocumentPreprocessor.init chunk_size overlap = .ok ⟨chunk_size, overlap⟩ :=
  rfl

/-- Claim C6: every passage produced by `process_document` has text longer
than 100 characters equal to its own stripped form, and the chunk ids are
exactly `0, 1, 2, …` in emission order. -/
theorem chunk_invariants (hooks : RegexHooks) (pre : DocumentPreprocessor)
    (content : String) :
    (∀ c ∈ processDocument hooks pre content,
      100 < c.text.length ∧ c.text = pyStrip c.text) ∧
    ((processDocument hooks pre content).map fun c => c.chunk_id) =
      List.range (processDocument hooks pre content).length := by
  unfold processDocument
  constructor
  · exact fun c hc => (buildChunks_spec _ 0).2 c hc
  · rw [List.range_eq_range']
    exact (buildChunks_spec _ 0).1

/-- Counterexample to claim C8: loading a directory that stores one
embedding but two passages returns successfully with the mismatched pair
installed — `load` performs no count check. -/
theorem load_accepts_count_mismatch :
    load demoManager mismatchStore = .ok mismatchLoaded ∧
    mismatchLoaded.chunks_df.length = 2 ∧
    (mismatchLoaded.index.getD []).length = 1 :=
  ⟨rfl, rfl, rfl⟩

/-- Amended claim C8: `load` fails when the index file or the passage file
is missing at the target path, and otherwise returns successfully with
exactly the two stored artifacts — it performs no consistency check between
the passage count and the embedding count. -/
theorem load_spec (st : EnhancedEmbeddingManager) (dir : IndexStoreDir) :
    (dir.faissFile = none ∨ dir.parquetFile = none →
      load st dir = .error .fileNotFound) ∧
    (∀ idx chunks, dir.faissFile = some idx → dir.parquetFile = some chunks →
      load st dir = .ok { st with index := some idx, chunks_df := chunks }) := by
  constructor
  · intro h
    rcases h with h | h
    · simp [load, h]
    · cases hf : dir.faissFile <;> simp [load, hf, h]
  · intro idx chunks h1 h2
    simp [load, h1, h2]

/-! ### Witnesses: the claim theorems applied at concrete inputs -/

/-- Witness for C1: the merge/sort/truncate properties at a concrete built
manager and technical query. -/
theorem multi_term_merge_spec_witness :
    (gatherResults demoManager
        ((get_search_terms demoManager.reSearch "como fazer join?").take 3) =
      .ok demoAll) ∧
    (search_intelligent demoManager "como fazer join?" 5 = .ok demoOutcome) ∧
    ((demoOutcome.results.map fun r => r.chunk_id).Nodup ∧
     (∀ r ∈ demoOutcome.results,
       (∀ y ∈ demoAll,
         y.chunk_id = r.chunk_id → y.similarity ≤ r.similarity) ∧
       ∃ y ∈ demoAll,
         y.chunk_id = r.chunk_id ∧ y.similarity = r.similarity) ∧
     demoOutcome.results.Pairwise (fun a b => b.similarity ≤ a.similarity) ∧
     demoOutcome.results.length ≤ 5) :=
  ⟨by with_unfolding_all rfl, by with_unfolding_all rfl,
   multi_term_merge_spec demoManager "como fazer join?" 5 demoAll demoOutcome
     (by with_unfolding_all rfl) (by with_unfolding_all rfl)⟩

/-- Witness for C2: the greeting "Bom dia!" on a manager with no index. -/
theorem non_technical_no_search_witness :
    ((classify_intent greetMatcher "Bom dia!").1 = "small_talk" ∨
      (classify_intent greetMatcher "Bom dia!").1 = "general_non_technical") ∧
    get_search_terms greetMatcher "Bom dia!" = [] ∧
    search_intelligent noIndexManager "Bom dia!" 5 =
      .ok ⟨(classify_intent greetMatcher "Bom dia!").1,
        (classify_intent greetMatcher "Bom dia!").2, [], [], none, false⟩ :=
  ⟨Or.inl (by decide),
   (non_technical_no_search greetMatcher "Bom dia!" (Or.inl (by decide))).1,
   (non_technical_no_search greetMatcher "Bom dia!"
     (Or.inl (by decide))).2 noIndexManager rfl 5⟩

/-- Witness for C3: searching a manager whose index was never built. -/
theorem query_unbuilt_index_raises_witness :
    noIndexManager.index = none ∧
    search_single noIndexManager "lookup" 3 (mkRat 1 5) =
      .error SearchError.indexNotReady :=
  ⟨rfl, query_unbuilt_index_raises noIndexManager "lookup" 3 (mkRat 1 5) rfl⟩

/-- Witness for C4: two componentwise-equal managers return the same
outcome. -/
theorem search_deterministic_witness :
    search_intelligent demoManager "como fazer join?" 5 =
      search_intelligent demoManagerTwin "como fazer join?" 5 :=
  search_deterministic demoManager demoManagerTwin rfl rfl rfl rfl rfl
    "como fazer join?" 5

/-- Witness for C7: an always-raising generator leaves a successful outcome
with no natural response. -/
theorem generator_failure_contained_witness :
    geminiFailing demoManager.gemini_assistant ∧
    search_intelligent demoManager "como fazer join?" 5 = .ok demoOutcome ∧
    demoOutcome.natural_response = none ∧ demoOutcome.gemini_used = false := by
  have hg : geminiFailing demoManager.gemini_assistant := by
    intro p
    exact trivial
  exact ⟨hg, by with_unfolding_all rfl,
    (generator_failure_contained demoManager "como fazer join?" 5 hg).1
      demoOutcome (by with_unfolding_all rfl)⟩

/-- Witness for C8: a missing artifact fails the load, and a complete
directory loads as stored. -/
theorem load_spec_witness :
    load demoManager ⟨none, none⟩ = .error LoadError.fileNotFound ∧
    load demoManager mismatchStore =
      .ok { demoManager with index := some [[1]], chunks_df := demoChunks } :=
  ⟨(load_spec demoManager ⟨none, none⟩).1 (Or.inl rfl),
   (load_spec demoManager mismatchStore).2 [[1]] demoChunks rfl rfl⟩

/-- Witness for C9: a query matching both "(piada|história)" and
"(join|junção)" classifies as small-talk. -/
theorem mixed_query_prefers_small_talk_witness :
    (∃ p ∈ patternsFor "small_talk",
      mixedMatcher p (pyLower "conte uma piada sobre join") = true) ∧
    (∃ i ∈ sap_intents, ∃ p ∈ patternsFor i,
      mixedMatcher p (pyLower "conte uma piada sobre join") = true) ∧
    classify_intent mixedMatcher "conte uma piada sobre join" =
      ("small_talk", []) :=
  ⟨by decide, by decide,
   mixed_query_prefers_small_talk mixedMatcher "conte uma piada sobre join"
     (by decide) (by decide)⟩

/-- Witness for C10: with every similarity below the threshold the outcome
has empty results, no response and an unset flag, although the installed
generator would succeed if consulted. -/
theorem gemini_flag_consistent_witness :
    search_intelligent zeroEncodeManager "como fazer join?" 5 =
      .ok zeroOutcome ∧
    ((zeroOutcome.gemini_used = true ↔ zeroOutcome.natural_response ≠ none) ∧
     (zeroOutcome.results = [] →
       zeroOutcome.natural_response = none ∧
       zeroOutcome.gemini_used = false ∧
       ∀ g, search_intelligent
         { zeroEncodeManager with gemini_assistant := g }
         "como fazer join?" 5 = .ok zeroOutcome)) :=
  ⟨by with_unfolding_all rfl,
   gemini_flag_consistent zeroEncodeManager "como fazer join?" 5 zeroOutcome
     (by with_unfolding_all rfl)⟩

end SapBot
